import Mathlib

/-!
# ScanPro Windows plugin: registration shim and plugin class

A shallow embedding of `windows/scanpro_dart_plugin_c_api.cpp` (the C-linkage
entry point) and of the class declared in `windows/scanpro_dart_plugin.h`.

The entry point is three calls into code that lives elsewhere
(`PluginRegistrarManager::GetInstance`, `GetRegistrar`, and
`ScanproDartPlugin::RegisterWithRegistrar`).  It is embedded as a small program
tree whose nodes are those calls; the callees are supplied by a `Host`, which
threads an explicit host state and may fail.
-/

namespace ScanproDart

/-! ## Values exchanged with the host -/

/-- The raw handle `FlutterDesktopPluginRegistrarRef`: an opaque pointer,
represented by its address. -/
abbrev FlutterDesktopPluginRegistrarRef := Nat

/-- The payload type `flutter::EncodableValue`: a dynamically typed value
(primitives, sequences, string-keyed mappings). -/
inductive EncodableValue where
  | null
  | bool (b : Bool)
  | int (i : Int)
  | string (s : String)
  | list (xs : List EncodableValue)
  | map (kvs : List (String × EncodableValue))

/-- An incoming call `flutter::MethodCall<EncodableValue>`: a method name and a
payload. -/
structure MethodCall where
  method_name : String
  arguments : EncodableValue

/-- One resolution delivered to a result sink: `Success(value)`,
`Error(code, message, details)` or `NotImplemented()`. -/
inductive Resolution where
  | success (value : EncodableValue)
  | error (code : String) (message : String) (details : EncodableValue)
  | notImplemented

/-- Whether a resolution answers the call with a success value. -/
def Resolution.isSuccess : Resolution → Bool
  | .success _ => true
  | _ => false

/-- Whether a resolution is an error resolution (an error proper, or the
conventional "not implemented" answer). -/
def Resolution.isError : Resolution → Bool
  | .success _ => false
  | _ => true

/-- The result sink `flutter::MethodResult<EncodableValue>`, represented by the
resolutions delivered to it so far, oldest first.  A sink nobody has resolved
yet has an empty log. -/
structure MethodResult where
  resolutions : List Resolution

/-- A sink as the channel hands it to the handler: not resolved yet. -/
def MethodResult.fresh : MethodResult := ⟨[]⟩

/-- Method `MethodResult::Success`. -/
def MethodResult.Success (result : MethodResult) (value : EncodableValue) : MethodResult :=
  ⟨result.resolutions ++ [.success value]⟩

/-- Method `MethodResult::Error`. -/
def MethodResult.Error (result : MethodResult) (code message : String)
    (details : EncodableValue) : MethodResult :=
  ⟨result.resolutions ++ [.error code message details]⟩

/-- Method `MethodResult::NotImplemented`. -/
def MethodResult.NotImplemented (result : MethodResult) : MethodResult :=
  ⟨result.resolutions ++ [.notImplemented]⟩

/-! ## The plugin class (`scanpro_dart_plugin.h`, lines 11-27) -/

/-- Modelled from the spec: the base interface `flutter::Plugin`, whose header is
not among the sources.  The data model gives a plugin instance no declared
state, so the base contributes no field. -/
structure Plugin where

/-- The class `ScanproDartPlugin : public flutter::Plugin`.  The declaration has
a static registration function, a constructor, a virtual destructor, two
deleted copy operations and one member function; it declares no data member. -/
structure ScanproDartPlugin extends Plugin where

/-- The shape of a body for the member function declared at lines 24-26,
`void HandleMethodCall(const MethodCall&, std::unique_ptr<MethodResult>)`.
It is not `const`, so it receives the instance and hands it back; it takes
ownership of the sink, whose final log is returned; `ν` is whatever native
state outside the instance the body may read and write. -/
abbrev HandlerBody (ν : Type) :=
  ScanproDartPlugin → MethodCall → MethodResult → ν → ScanproDartPlugin × MethodResult × ν

/-- The failure of a native operation: error code, human-readable message and
structured details. -/
structure MethodError where
  code : String
  message : String
  details : EncodableValue

/-- The methods a handler recognises: a method name is either unknown or names
a native operation, which takes the payload and the native state and completes
with a value or fails. -/
abbrev MethodTable (ν : Type) :=
  String → Option (EncodableValue → ν → Except MethodError EncodableValue × ν)

/-- Modelled from the spec: the body of `ScanproDartPlugin::HandleMethodCall`,
which is in the implementation file and not among the sources (only the
declaration is).  The contract reads: inspect the method name, perform the
corresponding native operation, and resolve the result with a success value on
completion or with an error on failure; an unrecognised method name is
answered "not implemented".  Which names exist is not specified, so the
table of recognised methods is a parameter. -/
def ScanproDartPlugin.HandleMethodCall {ν : Type} (methods : MethodTable ν) : HandlerBody ν :=
  fun self method_call result native =>
    match methods method_call.method_name with
    | none => (self, result.NotImplemented, native)
    | some operation =>
      match operation method_call.arguments native with
      | (.ok value, native1) => (self, result.Success value, native1)
      | (.error e, native1) => (self, result.Error e.code e.message e.details, native1)

/-! ## Registrar objects and registration -/

/-- The function a channel dispatches incoming calls to: `HandleMethodCall` of
the plugin instance at the given position among the instances the registrar
owns. -/
inductive CallHandler where
  | HandleMethodCall (plugin : Nat)
  deriving DecidableEq, Repr

/-- Modelled from the spec: the native-message dispatcher of a registrar
(`flutter::BinaryMessenger`, toolkit code).  It holds the call-handler of each
channel, keyed by channel name. -/
structure BinaryMessenger where
  handlers : List (String × CallHandler)
  deriving DecidableEq, Repr

/-- Installing a handler for a channel name makes it the handler of that
channel: an earlier handler under the same name is replaced. -/
def BinaryMessenger.SetMessageHandler (messenger : BinaryMessenger) (channel : String)
    (handler : CallHandler) : BinaryMessenger :=
  ⟨messenger.handlers.filter (fun entry => entry.1 != channel) ++ [(channel, handler)]⟩

/-- The handlers a dispatcher holds for one channel name. -/
def BinaryMessenger.handlersOn (messenger : BinaryMessenger) (channel : String) :
    List CallHandler :=
  (messenger.handlers.filter (fun entry => entry.1 == channel)).map Prod.snd

/-- Modelled from the spec: a named method channel
(`flutter::MethodChannel<EncodableValue>`, toolkit code), bound to the
dispatcher it was created on. -/
structure MethodChannel where
  messenger : BinaryMessenger
  name : String

/-- Method `MethodChannel::SetMethodCallHandler`: installs the handler under the
channel name on the dispatcher the channel is bound to. -/
def MethodChannel.SetMethodCallHandler (channel : MethodChannel) (handler : CallHandler) :
    BinaryMessenger :=
  channel.messenger.SetMessageHandler channel.name handler

/-- Modelled from the spec: the registrar object `flutter::PluginRegistrarWindows`
(toolkit code): the capability through which a plugin reaches the
native-message dispatcher, and the owner of the plugin instances registered
with it. -/
structure PluginRegistrarWindows where
  messenger : BinaryMessenger
  plugins : List ScanproDartPlugin

/-- Modelled from the spec: the body of the static function
`ScanproDartPlugin::RegisterWithRegistrar`, which is in the implementation
file and not among the sources (only the declaration at line 13 and the call
in the C API file are).  It constructs one plugin instance, creates the named
method channel bound to the dispatcher of the registrar, and installs the
handler of that instance as the call-handler of the channel.  The channel name
is not given by the specification and is a parameter. -/
def ScanproDartPlugin.RegisterWithRegistrar (channel_name : String)
    (registrar : PluginRegistrarWindows) : PluginRegistrarWindows :=
  let plugin : ScanproDartPlugin := {}
  let channel : MethodChannel := ⟨registrar.messenger, channel_name⟩
  let handler := CallHandler.HandleMethodCall registrar.plugins.length
  { messenger := channel.SetMethodCallHandler handler
    plugins := registrar.plugins ++ [plugin] }

/-! ## Calls made by the translation unit, as a program tree -/

/-- What a function of this plugin can do next: return, fail, or call one of
the functions the two files declare or use.  A call that yields a value
continues with it. -/
inductive Prog (Mgr Reg ε : Type) where
  | ret
  | fail (e : ε)
  | GetInstance (k : Mgr → Prog Mgr Reg ε)
  | GetRegistrar (mgr : Mgr) (ref : FlutterDesktopPluginRegistrarRef)
      (k : Reg → Prog Mgr Reg ε)
  | RegisterWithRegistrar (registrar : Reg) (k : Prog Mgr Reg ε)
  | HandleMethodCall (plugin : ScanproDartPlugin) (method_call : MethodCall)
      (result : MethodResult) (k : Prog Mgr Reg ε)
  | Resolve (result : MethodResult) (r : Resolution) (k : MethodResult → Prog Mgr Reg ε)

/-- The function `ScanproDartPluginCApiRegisterWithRegistrar`
(`scanpro_dart_plugin_c_api.cpp`, lines 7-12).  The argument expression is
evaluated first: the manager singleton is obtained, it resolves the raw
reference, and the resulting registrar object is passed to the static
registration function.  Then the function returns. -/
def ScanproDartPluginCApiRegisterWithRegistrar {Mgr Reg ε : Type}
    (registrar : FlutterDesktopPluginRegistrarRef) : Prog Mgr Reg ε :=
  .GetInstance fun mgr =>
    .GetRegistrar mgr registrar fun reg =>
      .RegisterWithRegistrar reg .ret

/-! ## The host: the callees, with explicit state -/

/-- The functions called from this translation unit whose bodies live
elsewhere (the toolkit's registrar manager, and the plugin's own implementation
file).  Each takes the host state and either fails or returns its value
together with the new state. -/
structure Host (σ Mgr Reg ε : Type) where
  GetInstance : σ → Except ε (Mgr × σ)
  GetRegistrar : Mgr → FlutterDesktopPluginRegistrarRef → σ → Except ε (Reg × σ)
  RegisterWithRegistrar : Reg → σ → Except ε σ
  HandleMethodCall : ScanproDartPlugin → MethodCall → MethodResult → σ → Except ε σ

/-- A record of one call made while a program runs, with the value the callee
returned where there is one. -/
inductive Event (Mgr Reg : Type) where
  | GetInstance (returned : Mgr)
  | GetRegistrar (mgr : Mgr) (ref : FlutterDesktopPluginRegistrarRef) (returned : Reg)
  | RegisterWithRegistrar (registrar : Reg)
  | HandleMethodCall (method_call : MethodCall)
  | Resolve (r : Resolution)

/-- A manager lookup of the reference `ref`. -/
def Event.isGetRegistrarOf {Mgr Reg : Type} (ref : FlutterDesktopPluginRegistrarRef) :
    Event Mgr Reg → Bool
  | .GetRegistrar _ r _ => r == ref
  | _ => false

/-- A call of `ScanproDartPlugin::RegisterWithRegistrar`. -/
def Event.isRegisterWithRegistrar {Mgr Reg : Type} : Event Mgr Reg → Bool
  | .RegisterWithRegistrar _ => true
  | _ => false

/-- A call of `ScanproDartPlugin::HandleMethodCall`. -/
def Event.isHandleMethodCall {Mgr Reg : Type} : Event Mgr Reg → Bool
  | .HandleMethodCall _ => true
  | _ => false

/-- A resolution of a result sink. -/
def Event.isResolve {Mgr Reg : Type} : Event Mgr Reg → Bool
  | .Resolve _ => true
  | _ => false

/-- Run a program against a host, from a host state and the calls recorded so
far.  The outcome is the failure that stopped it, or the final host state with
every call made, in order. -/
def run {σ Mgr Reg ε : Type} (H : Host σ Mgr Reg ε) :
    Prog Mgr Reg ε → σ → List (Event Mgr Reg) → Except ε (σ × List (Event Mgr Reg))
  | .ret, s, tr => .ok (s, tr)
  | .fail e, _, _ => .error e
  | .GetInstance k, s, tr =>
    match H.GetInstance s with
    | .error e => .error e
    | .ok (mgr, s1) => run H (k mgr) s1 (tr ++ [.GetInstance mgr])
  | .GetRegistrar mgr ref k, s, tr =>
    match H.GetRegistrar mgr ref s with
    | .error e => .error e
    | .ok (reg, s1) => run H (k reg) s1 (tr ++ [.GetRegistrar mgr ref reg])
  | .RegisterWithRegistrar reg k, s, tr =>
    match H.RegisterWithRegistrar reg s with
    | .error e => .error e
    | .ok s1 => run H k s1 (tr ++ [.RegisterWithRegistrar reg])
  | .HandleMethodCall plugin method_call result k, s, tr =>
    match H.HandleMethodCall plugin method_call result s with
    | .error e => .error e
    | .ok s1 => run H k s1 (tr ++ [.HandleMethodCall method_call])
  | .Resolve result r k, s, tr =>
    run H (k ⟨result.resolutions ++ [r]⟩) s (tr ++ [.Resolve r])

/-- The host loader invoking the entry point `n` times with the same
reference, one invocation after the other. -/
def invokeTimes {σ Mgr Reg ε : Type} (H : Host σ Mgr Reg ε)
    (registrar : FlutterDesktopPluginRegistrarRef) :
    Nat → σ → List (Event Mgr Reg) → Except ε (σ × List (Event Mgr Reg))
  | 0, s, tr => .ok (s, tr)
  | n + 1, s, tr =>
    match run H (ScanproDartPluginCApiRegisterWithRegistrar registrar) s tr with
    | .error e => .error e
    | .ok (s1, tr1) => invokeTimes H registrar n s1 tr1

/-- The richer-typed path the specification compares the entry point with: the
manager resolves the reference, and `RegisterWithRegistrar` is called directly
on the registrar object it yields. -/
def directRegistration {σ Mgr Reg ε : Type} (H : Host σ Mgr Reg ε)
    (registrar : FlutterDesktopPluginRegistrarRef) (s : σ) : Except ε σ := do
  let (mgr, s1) ← H.GetInstance s
  let (reg, s2) ← H.GetRegistrar mgr registrar s1
  H.RegisterWithRegistrar reg s2

/-! ## A concrete host -/

/-- Modelled from the spec: the registrar manager of the host
(`flutter::PluginRegistrarManager`, toolkit code), a process-wide table from
raw registrar references to registrar objects. -/
structure PluginRegistrarManager where
  registrars : List (FlutterDesktopPluginRegistrarRef × PluginRegistrarWindows)

/-- How a call into the table-backed host can fail. -/
inductive HostError where
  | unknownReference (ref : FlutterDesktopPluginRegistrarRef)
  | noSuchRegistrar (position : Nat)
  deriving DecidableEq, Repr

/-- A host whose manager is the table above.  A registrar object is referred to
by its position in the table; a reference the table does not hold cannot be
resolved.  Registration is the modelled `RegisterWithRegistrar` on the object
at that position. -/
def tableHost (channel_name : String) : Host PluginRegistrarManager Unit Nat HostError where
  GetInstance := fun s => .ok ((), s)
  GetRegistrar := fun _ ref s =>
    match s.registrars.findIdx? (fun entry => entry.1 == ref) with
    | some position => .ok (position, s)
    | none => .error (.unknownReference ref)
  RegisterWithRegistrar := fun position s =>
    match s.registrars.get? position with
    | some (ref, registrar) =>
      .ok ⟨s.registrars.set position
        (ref, ScanproDartPlugin.RegisterWithRegistrar channel_name registrar)⟩
    | none => .error (.noSuchRegistrar position)
  HandleMethodCall := fun _ _ _ s => .ok s

/-- A registrar with nothing registered yet. -/
def emptyRegistrar : PluginRegistrarWindows := ⟨⟨[]⟩, []⟩

/-- A registrar that already owns one plugin instance and holds a handler on
the channel `scanpro_dart` and one on the channel `other`. -/
def busyRegistrar : PluginRegistrarWindows :=
  ⟨⟨[("scanpro_dart", .HandleMethodCall 0), ("other", .HandleMethodCall 0)]⟩, [{}]⟩

/-- A method table with one recognised method, `getPlatformVersion`, whose
native operation completes with a fixed string and counts its invocations. -/
def sampleMethods : MethodTable Nat := fun name =>
  if name = "getPlatformVersion" then
    some (fun _ calls => (.ok (.string "Windows"), calls + 1))
  else none

/-- A manager table holding one registrar, under the reference `7`. -/
def sampleManager : PluginRegistrarManager := ⟨[(7, emptyRegistrar)]⟩

/-- The table-backed host can resolve the reference `7` and register on the
object found: its table holds exactly one registrar, under `7`. -/
def holdsSeven (s : PluginRegistrarManager) : Prop :=
  s.registrars.map Prod.fst = [7]

/-! ## Shared lemmas -/

/-- The calls one invocation of the entry point records when the manager
singleton is `mgr` and the lookup yields `reg`. -/
def invocationCalls {Mgr Reg : Type} (registrar : FlutterDesktopPluginRegistrarRef)
    (lookup : Mgr × Reg) : List (Event Mgr Reg) :=
  [.GetInstance lookup.1, .GetRegistrar lookup.1 registrar lookup.2,
   .RegisterWithRegistrar lookup.2]

/-- The calls of several invocations in a row. -/
def invocationsCalls {Mgr Reg : Type} (registrar : FlutterDesktopPluginRegistrarRef) :
    List (Mgr × Reg) → List (Event Mgr Reg)
  | [] => []
  | lookup :: rest => invocationCalls registrar lookup ++ invocationsCalls registrar rest

/-- Running the entry point when its three callees return. -/
theorem run_entry_of_returns {σ Mgr Reg ε : Type} (H : Host σ Mgr Reg ε)
    (r : FlutterDesktopPluginRegistrarRef) (s s1 s2 s3 : σ) (m : Mgr) (reg : Reg)
    (tr : List (Event Mgr Reg))
    (hInstance : H.GetInstance s = .ok (m, s1))
    (hLookup : H.GetRegistrar m r s1 = .ok (reg, s2))
    (hRegister : H.RegisterWithRegistrar reg s2 = .ok s3) :
    run H (ScanproDartPluginCApiRegisterWithRegistrar r) s tr
      = .ok (s3, tr ++ invocationCalls r (m, reg)) := by
  simp [ScanproDartPluginCApiRegisterWithRegistrar, run, hInstance, hLookup, hRegister,
    invocationCalls]

/-- Counting the registration calls of several invocations. -/
theorem countP_register_invocationsCalls {Mgr Reg : Type}
    (r : FlutterDesktopPluginRegistrarRef) (lookups : List (Mgr × Reg)) :
    (invocationsCalls r lookups).countP Event.isRegisterWithRegistrar = lookups.length := by
  induction lookups with
  | nil => rfl
  | cons lookup rest ih =>
    simp [invocationsCalls, invocationCalls, List.countP_cons, Event.isRegisterWithRegistrar, ih]

/-- Counting the manager lookups of several invocations. -/
theorem countP_lookup_invocationsCalls {Mgr Reg : Type}
    (r : FlutterDesktopPluginRegistrarRef) (lookups : List (Mgr × Reg)) :
    (invocationsCalls r lookups).countP (Event.isGetRegistrarOf r) = lookups.length := by
  induction lookups with
  | nil => rfl
  | cons lookup rest ih =>
    simp [invocationsCalls, invocationCalls, List.countP_cons, Event.isGetRegistrarOf, ih]

/-! ## The C-linkage entry point -/

/-- Claim C1 (C-API delegation).  For every host, every host state and every raw
registrar reference, invoking the C-linkage entry point leaves the host in the
same state, or fails with the same error, as resolving the reference through
the registrar manager and calling `RegisterWithRegistrar` directly on the
registrar object obtained. -/
theorem capi_delegates_to_RegisterWithRegistrar {σ Mgr Reg ε : Type}
    (H : Host σ Mgr Reg ε) (r : FlutterDesktopPluginRegistrarRef) (s : σ)
    (tr : List (Event Mgr Reg)) :
    (run H (ScanproDartPluginCApiRegisterWithRegistrar r) s tr).map Prod.fst
      = directRegistration H r s := by
  unfold directRegistration ScanproDartPluginCApiRegisterWithRegistrar
  cases hInstance : H.GetInstance s with
  | error e => simp [run, hInstance, Except.map, bind, Except.bind]
  | ok a =>
    obtain ⟨m, s1⟩ := a
    cases hLookup : H.GetRegistrar m r s1 with
    | error e => simp [run, hInstance, hLookup, Except.map, bind, Except.bind]
    | ok b =>
      obtain ⟨reg, s2⟩ := b
      cases hRegister : H.RegisterWithRegistrar reg s2 with
      | error e => simp [run, hInstance, hLookup, hRegister, Except.map, bind, Except.bind]
      | ok s3 => simp [run, hInstance, hLookup, hRegister, Except.map, bind, Except.bind]

/-- Claim C2 (the entry point has no effect of its own).  When the three
callees return, one invocation with reference `r` records exactly the calls
`GetInstance`, `GetRegistrar` of `r`, `RegisterWithRegistrar` of the object
found: one manager lookup of `r`, one delegated registration, no
`HandleMethodCall` and no sink resolution.  The final host state is the one the
delegated call returned, so every observation of the state that those callee
steps preserve has the same value after the invocation as before. -/
theorem capi_only_looks_up_and_delegates {σ Mgr Reg ε : Type} (H : Host σ Mgr Reg ε)
    (r : FlutterDesktopPluginRegistrarRef) (s s1 s2 s3 : σ) (m : Mgr) (reg : Reg)
    (tr : List (Event Mgr Reg))
    (hInstance : H.GetInstance s = .ok (m, s1))
    (hLookup : H.GetRegistrar m r s1 = .ok (reg, s2))
    (hRegister : H.RegisterWithRegistrar reg s2 = .ok s3) :
    ∃ s4 calls,
      run H (ScanproDartPluginCApiRegisterWithRegistrar r) s tr = .ok (s4, tr ++ calls) ∧
      calls = [.GetInstance m, .GetRegistrar m r reg, .RegisterWithRegistrar reg] ∧
      calls.countP (Event.isGetRegistrarOf r) = 1 ∧
      calls.countP Event.isRegisterWithRegistrar = 1 ∧
      calls.countP Event.isHandleMethodCall = 0 ∧
      calls.countP Event.isResolve = 0 ∧
      s4 = s3 ∧
      ∀ (β : Type) (obs : σ → β),
        obs s1 = obs s → obs s2 = obs s1 → obs s3 = obs s2 → obs s4 = obs s := by
  refine ⟨s3, invocationCalls r (m, reg),
    run_entry_of_returns H r s s1 s2 s3 m reg tr hInstance hLookup hRegister, rfl, ?_, ?_, ?_, ?_,
    rfl, ?_⟩
  · simp [invocationCalls, List.countP_cons, Event.isGetRegistrarOf]
  · simp [invocationCalls, List.countP_cons, Event.isRegisterWithRegistrar]
  · simp [invocationCalls, List.countP_cons, Event.isHandleMethodCall]
  · simp [invocationCalls, List.countP_cons, Event.isResolve]
  · intro β obs h1 h2 h3
    rw [h3, h2, h1]

/-- Claim C2 at a concrete input: the table-backed host holding one registrar
under reference `7`. -/
theorem capi_only_looks_up_and_delegates_witness :
    ∃ s4 calls,
      run (tableHost "scanpro_dart") (ScanproDartPluginCApiRegisterWithRegistrar 7)
        sampleManager [] = .ok (s4, [] ++ calls) ∧
      calls = [.GetInstance (), .GetRegistrar () 7 0, .RegisterWithRegistrar 0] ∧
      calls.countP (Event.isGetRegistrarOf 7) = 1 ∧
      calls.countP Event.isRegisterWithRegistrar = 1 ∧
      calls.countP Event.isHandleMethodCall = 0 ∧
      calls.countP Event.isResolve = 0 ∧
      s4 = ⟨[(7, ScanproDartPlugin.RegisterWithRegistrar "scanpro_dart" emptyRegistrar)]⟩ ∧
      ∀ (β : Type) (obs : PluginRegistrarManager → β),
        obs sampleManager = obs sampleManager → obs sampleManager = obs sampleManager →
        obs ⟨[(7, ScanproDartPlugin.RegisterWithRegistrar "scanpro_dart" emptyRegistrar)]⟩
          = obs sampleManager →
        obs s4 = obs sampleManager :=
  capi_only_looks_up_and_delegates (tableHost "scanpro_dart") 7 sampleManager sampleManager
    sampleManager ⟨[(7, ScanproDartPlugin.RegisterWithRegistrar "scanpro_dart" emptyRegistrar)]⟩
    () 0 [] rfl rfl rfl

/-- Claim C6 (the registration shim has no failure path).  For every host, state
and reference: whenever the manager lookup and the delegated
`RegisterWithRegistrar` call return, the entry point returns normally, in the
state the delegated call returned; and whenever the entry point fails, the
error is one a callee returned (from `GetInstance`, from `GetRegistrar`, or
from `RegisterWithRegistrar`), never one the entry point raised by rejecting
the reference itself. -/
theorem capi_has_no_failure_path {σ Mgr Reg ε : Type} (H : Host σ Mgr Reg ε)
    (r : FlutterDesktopPluginRegistrarRef) (s : σ) (tr : List (Event Mgr Reg)) :
    (∀ (m : Mgr) (s1 : σ) (reg : Reg) (s2 s3 : σ),
        H.GetInstance s = .ok (m, s1) → H.GetRegistrar m r s1 = .ok (reg, s2) →
        H.RegisterWithRegistrar reg s2 = .ok s3 →
        ∃ calls, run H (ScanproDartPluginCApiRegisterWithRegistrar r) s tr = .ok (s3, calls)) ∧
    (∀ e : ε, run H (ScanproDartPluginCApiRegisterWithRegistrar r) s tr = .error e →
        H.GetInstance s = .error e ∨
        ∃ m s1, H.GetInstance s = .ok (m, s1) ∧
          (H.GetRegistrar m r s1 = .error e ∨
           ∃ reg s2, H.GetRegistrar m r s1 = .ok (reg, s2) ∧
             H.RegisterWithRegistrar reg s2 = .error e)) := by
  constructor
  · intro m s1 reg s2 s3 hInstance hLookup hRegister
    exact ⟨_, run_entry_of_returns H r s s1 s2 s3 m reg tr hInstance hLookup hRegister⟩
  · intro e hrun
    cases hInstance : H.GetInstance s with
    | error e1 =>
      have h : run H (ScanproDartPluginCApiRegisterWithRegistrar r) s tr = .error e1 := by
        simp [ScanproDartPluginCApiRegisterWithRegistrar, run, hInstance]
      rw [h] at hrun
      cases hrun
      exact Or.inl rfl
    | ok a =>
      obtain ⟨m, s1⟩ := a
      refine Or.inr ⟨m, s1, rfl, ?_⟩
      cases hLookup : H.GetRegistrar m r s1 with
      | error e1 =>
        have h : run H (ScanproDartPluginCApiRegisterWithRegistrar r) s tr = .error e1 := by
          simp [ScanproDartPluginCApiRegisterWithRegistrar, run, hInstance, hLookup]
        rw [h] at hrun
        cases hrun
        exact Or.inl rfl
      | ok b =>
        obtain ⟨reg, s2⟩ := b
        refine Or.inr ⟨reg, s2, rfl, ?_⟩
        cases hRegister : H.RegisterWithRegistrar reg s2 with
        | error e1 =>
          have h : run H (ScanproDartPluginCApiRegisterWithRegistrar r) s tr = .error e1 := by
            simp [ScanproDartPluginCApiRegisterWithRegistrar, run, hInstance, hLookup, hRegister]
          rw [h] at hrun
          cases hrun
          rfl
        | ok s3 =>
          rw [run_entry_of_returns H r s s1 s2 s3 m reg tr hInstance hLookup hRegister] at hrun
          cases hrun

/-- Claim C6 at concrete inputs: with reference `7` in the table the entry point
returns; with reference `8`, which the table does not hold, the failure is the
one the manager lookup returned. -/
theorem capi_has_no_failure_path_witness :
    (∃ calls, run (tableHost "scanpro_dart") (ScanproDartPluginCApiRegisterWithRegistrar 7)
        sampleManager [] = .ok
          (⟨[(7, ScanproDartPlugin.RegisterWithRegistrar "scanpro_dart" emptyRegistrar)]⟩,
            calls)) ∧
    ((tableHost "scanpro_dart").GetInstance sampleManager = .error (.unknownReference 8) ∨
      ∃ m s1, (tableHost "scanpro_dart").GetInstance sampleManager = .ok (m, s1) ∧
        ((tableHost "scanpro_dart").GetRegistrar m 8 s1 = .error (.unknownReference 8) ∨
          ∃ reg s2, (tableHost "scanpro_dart").GetRegistrar m 8 s1 = .ok (reg, s2) ∧
            (tableHost "scanpro_dart").RegisterWithRegistrar reg s2
              = .error (.unknownReference 8))) :=
  ⟨(capi_has_no_failure_path (tableHost "scanpro_dart") 7 sampleManager []).1 () sampleManager 0
      sampleManager
      ⟨[(7, ScanproDartPlugin.RegisterWithRegistrar "scanpro_dart" emptyRegistrar)]⟩
      rfl rfl rfl,
   (capi_has_no_failure_path (tableHost "scanpro_dart") 8 sampleManager []).2
      (.unknownReference 8) rfl⟩

/-- Claim C8 (no guard against repeated registration).  Let the host state
satisfy an invariant under which the three callees return at reference `r` and
which the delegated call re-establishes.  Then `n` invocations in a row all
return, and the calls they record are `n` blocks, each a manager lookup of `r`
followed by `RegisterWithRegistrar` on the very object that lookup returned:
`RegisterWithRegistrar` is called exactly `n` times, and so is the lookup. -/
theorem capi_registers_on_every_invocation {σ Mgr Reg ε : Type} (H : Host σ Mgr Reg ε)
    (r : FlutterDesktopPluginRegistrarRef) (Inv : σ → Prop)
    (hstep : ∀ s, Inv s → ∃ m s1 reg s2 s3,
      H.GetInstance s = .ok (m, s1) ∧ H.GetRegistrar m r s1 = .ok (reg, s2) ∧
      H.RegisterWithRegistrar reg s2 = .ok s3 ∧ Inv s3)
    (n : Nat) (s : σ) (hs : Inv s) (tr : List (Event Mgr Reg)) :
    ∃ (s4 : σ) (lookups : List (Mgr × Reg)),
      invokeTimes H r n s tr = .ok (s4, tr ++ invocationsCalls r lookups) ∧
      lookups.length = n ∧
      (invocationsCalls r lookups).countP Event.isRegisterWithRegistrar = n ∧
      (invocationsCalls r lookups).countP (Event.isGetRegistrarOf r) = n ∧
      Inv s4 := by
  induction n generalizing s tr with
  | zero => exact ⟨s, [], by simp [invokeTimes, invocationsCalls], rfl, rfl, rfl, hs⟩
  | succ n ih =>
    obtain ⟨m, s1, reg, s2, s3, hInstance, hLookup, hRegister, hInv⟩ := hstep s hs
    obtain ⟨s4, lookups, hrun, hlen, _, _, hInv4⟩ :=
      ih s3 hInv (tr ++ invocationCalls r (m, reg))
    refine ⟨s4, (m, reg) :: lookups, ?_, by simp [hlen], ?_, ?_, hInv4⟩
    · simp [invokeTimes,
        run_entry_of_returns H r s s1 s2 s3 m reg tr hInstance hLookup hRegister, hrun,
        invocationsCalls]
    · rw [countP_register_invocationsCalls]; simp [hlen]
    · rw [countP_lookup_invocationsCalls]; simp [hlen]

/-- Claim C8 at a concrete input: two invocations with reference `7` on the
table-backed host. -/
theorem capi_registers_on_every_invocation_witness :
    holdsSeven sampleManager ∧
    ∃ (s4 : PluginRegistrarManager) (lookups : List (Unit × Nat)),
      invokeTimes (tableHost "scanpro_dart") 7 2 sampleManager []
        = .ok (s4, [] ++ invocationsCalls 7 lookups) ∧
      lookups.length = 2 ∧
      (invocationsCalls 7 lookups).countP Event.isRegisterWithRegistrar = 2 ∧
      (invocationsCalls 7 lookups).countP (Event.isGetRegistrarOf 7) = 2 ∧
      holdsSeven s4 :=
  ⟨rfl,
   capi_registers_on_every_invocation (tableHost "scanpro_dart") 7 holdsSeven
    (fun s hs => by
      obtain ⟨registrars⟩ := s
      match registrars, hs with
      | [(ref, registrar)], hs =>
        have href : ref = 7 := by simpa [holdsSeven] using hs
        subst href
        exact ⟨(), _, 0, _, _, rfl, rfl, rfl, rfl⟩
      | [], hs => simp [holdsSeven] at hs
      | _ :: _ :: _, hs => simp [holdsSeven] at hs)
    2 sampleManager rfl []⟩

/-! ## The plugin class and its handler -/

/-- Claim C3 (exactly-once resolution).  For every table of recognised methods,
every call, every sink and every native state, `HandleMethodCall` delivers
exactly one resolution to the sink it was given: the log of the sink grows by
one entry, whichever branch is taken (unknown method, completed operation,
failed operation), and a sink that arrives unresolved ends with exactly one
resolution. -/
theorem HandleMethodCall_resolves_exactly_once {ν : Type} (methods : MethodTable ν)
    (self : ScanproDartPlugin) (method_call : MethodCall) (result : MethodResult)
    (native : ν) :
    (∃ r, (ScanproDartPlugin.HandleMethodCall methods self method_call result native).2.1.resolutions
        = result.resolutions ++ [r]) ∧
    (ScanproDartPlugin.HandleMethodCall methods self method_call result native).2.1.resolutions.length
      = result.resolutions.length + 1 ∧
    (ScanproDartPlugin.HandleMethodCall methods self method_call MethodResult.fresh
      native).2.1.resolutions.length = 1 := by
  unfold ScanproDartPlugin.HandleMethodCall
  cases hm : methods method_call.method_name with
  | none => exact ⟨⟨_, rfl⟩, by simp [MethodResult.NotImplemented], rfl⟩
  | some operation =>
    cases ho : operation method_call.arguments native with
    | mk outcome native1 =>
      cases outcome with
      | ok value => exact ⟨⟨.success value, by simp [ho, MethodResult.Success]⟩,
          by simp [ho, MethodResult.Success], by simp [ho, MethodResult.Success, MethodResult.fresh]⟩
      | error e => exact ⟨⟨.error e.code e.message e.details, by simp [ho, MethodResult.Error]⟩,
          by simp [ho, MethodResult.Error], by simp [ho, MethodResult.Error, MethodResult.fresh]⟩

/-- Claim C5 (unknown-method behaviour).  When the method name of a call is not
in the table of recognised methods, `HandleMethodCall` appends exactly the
"not implemented" resolution to the sink: the sink is not left as it was, the
resolution is an error resolution and not a success, and no native operation
has run. -/
theorem HandleMethodCall_unknown_method_notImplemented {ν : Type} (methods : MethodTable ν)
    (self : ScanproDartPlugin) (method_call : MethodCall) (result : MethodResult)
    (native : ν) (hunknown : methods method_call.method_name = none) :
    (ScanproDartPlugin.HandleMethodCall methods self method_call result native).2.1.resolutions
      = result.resolutions ++ [Resolution.notImplemented] ∧
    (ScanproDartPlugin.HandleMethodCall methods self method_call result native).2.1.resolutions
      ≠ result.resolutions ∧
    Resolution.notImplemented.isError = true ∧
    Resolution.notImplemented.isSuccess = false ∧
    (ScanproDartPlugin.HandleMethodCall methods self method_call result native).2.2 = native := by
  simp [ScanproDartPlugin.HandleMethodCall, hunknown, MethodResult.NotImplemented,
    Resolution.isError, Resolution.isSuccess]

/-- Claim C5 at a concrete input: the method `scanDocument` is not in the sample
table. -/
theorem HandleMethodCall_unknown_method_notImplemented_witness :
    (ScanproDartPlugin.HandleMethodCall sampleMethods {} ⟨"scanDocument", .null⟩
        MethodResult.fresh 0).2.1.resolutions
      = MethodResult.fresh.resolutions ++ [Resolution.notImplemented] ∧
    (ScanproDartPlugin.HandleMethodCall sampleMethods {} ⟨"scanDocument", .null⟩
        MethodResult.fresh 0).2.1.resolutions
      ≠ MethodResult.fresh.resolutions ∧
    Resolution.notImplemented.isError = true ∧
    Resolution.notImplemented.isSuccess = false ∧
    (ScanproDartPlugin.HandleMethodCall sampleMethods {} ⟨"scanDocument", .null⟩
        MethodResult.fresh 0).2.2 = 0 :=
  HandleMethodCall_unknown_method_notImplemented sampleMethods {} ⟨"scanDocument", .null⟩
    MethodResult.fresh 0 (by simp [sampleMethods])

/-- Claim C4 (single registration).  For every channel name and every registrar,
one call of `RegisterWithRegistrar` adds exactly one plugin instance to those
the registrar owns; afterwards the dispatcher of that registrar holds exactly
one call-handler on the named channel, namely `HandleMethodCall` of the
instance just constructed; and the handlers of every other channel are as
before. -/
theorem RegisterWithRegistrar_single_registration (channel_name : String)
    (registrar : PluginRegistrarWindows) :
    (ScanproDartPlugin.RegisterWithRegistrar channel_name registrar).plugins.length
      = registrar.plugins.length + 1 ∧
    (∃ plugin, (ScanproDartPlugin.RegisterWithRegistrar channel_name registrar).plugins
      = registrar.plugins ++ [plugin]) ∧
    (ScanproDartPlugin.RegisterWithRegistrar channel_name registrar).messenger.handlersOn
        channel_name
      = [CallHandler.HandleMethodCall registrar.plugins.length] ∧
    (ScanproDartPlugin.RegisterWithRegistrar channel_name registrar).plugins.get?
        registrar.plugins.length ≠ none ∧
    ∀ other : String, other ≠ channel_name →
      (ScanproDartPlugin.RegisterWithRegistrar channel_name registrar).messenger.handlersOn other
        = registrar.messenger.handlersOn other := by
  refine ⟨by simp [ScanproDartPlugin.RegisterWithRegistrar], ⟨_, rfl⟩, ?_, ?_, ?_⟩
  · simp [ScanproDartPlugin.RegisterWithRegistrar, MethodChannel.SetMethodCallHandler,
      BinaryMessenger.SetMessageHandler, BinaryMessenger.handlersOn, List.filter_append,
      List.filter_filter]
  · simp [ScanproDartPlugin.RegisterWithRegistrar]
  · intro other hne
    have hne2 : ¬ channel_name = other := fun h => hne h.symm
    simp only [ScanproDartPlugin.RegisterWithRegistrar, MethodChannel.SetMethodCallHandler,
      BinaryMessenger.SetMessageHandler, BinaryMessenger.handlersOn, List.filter_append,
      List.filter_filter]
    have hfilter : List.filter (fun a : String × CallHandler => a.1 == other && a.1 != channel_name)
        registrar.messenger.handlers
        = List.filter (fun a : String × CallHandler => a.1 == other) registrar.messenger.handlers := by
      apply List.filter_congr
      intro a _
      by_cases ha : a.1 = other
      · simp [ha, hne]
      · simp [ha]
    simp [hfilter, hne2]

/-- Claim C4 at a concrete input: registering on a registrar that already holds
a handler on the same channel and one on the channel `other`. -/
theorem RegisterWithRegistrar_single_registration_witness :
    (ScanproDartPlugin.RegisterWithRegistrar "scanpro_dart" busyRegistrar).plugins.length = 2 ∧
    (ScanproDartPlugin.RegisterWithRegistrar "scanpro_dart" busyRegistrar).messenger.handlersOn
        "scanpro_dart"
      = [CallHandler.HandleMethodCall 1] ∧
    "other" ≠ "scanpro_dart" ∧
    (ScanproDartPlugin.RegisterWithRegistrar "scanpro_dart" busyRegistrar).messenger.handlersOn
        "other"
      = busyRegistrar.messenger.handlersOn "other" :=
  ⟨(RegisterWithRegistrar_single_registration "scanpro_dart" busyRegistrar).1,
   (RegisterWithRegistrar_single_registration "scanpro_dart" busyRegistrar).2.2.1,
   by decide,
   (RegisterWithRegistrar_single_registration "scanpro_dart" busyRegistrar).2.2.2.2 "other"
     (by decide)⟩

/-- Claim C7 (the plugin instance owns no declared state).  The class declares
no data member: any two instances are equal; whatever body `HandleMethodCall`
is given, the instance it leaves behind is the instance it received, and what
an invocation does is the same whether or not another invocation ran on the
instance before it. -/
theorem ScanproDartPlugin_has_no_state :
    (∀ p q : ScanproDartPlugin, p = q) ∧
    ∀ (ν : Type) (body : HandlerBody ν) (p : ScanproDartPlugin)
      (call1 call2 : MethodCall) (result1 result2 : MethodResult) (native1 native2 : ν),
      (body p call1 result1 native1).1 = p ∧
      body (body p call1 result1 native1).1 call2 result2 native2
        = body p call2 result2 native2 := by
  have h : ∀ p q : ScanproDartPlugin, p = q := by
    intro p q
    cases p
    cases q
    rfl
  refine ⟨h, ?_⟩
  intro ν body p call1 call2 result1 result2 native1 native2
  exact ⟨h _ _, by rw [h (body p call1 result1 native1).1 p]⟩

end ScanproDart
